import Mathlib

/-!
Verification development for the BFF authentication/session-security core:
auth driver session protocol, session principal codec, authorization
middleware, CSRF guard, OAuth token cache, and gateway proxy path guard.

Source files embedded:
- packages/auth/src/drivers/base.driver.ts (AuthUserSchema, getUser,
  saveUserToSession)
- apps/api/src/middleware/auth.middleware.ts (optionalAuth)
- apps/api/src/services/token-cache.service.ts (getAccessToken,
  clearTokenCache)
- apps/api/src/routes gateway file (sanitizePath, GET data route handler)
- apps/api/src/services/auth.service.ts (getCallbackUrl)
- apps/api/src/middleware/csrf.middleware.ts (csrfProtection; the
  implementation file is absent, so it is modelled from the spec)
-/

namespace Spec2Proof

/-- JSON-like values as stored in the session store.  `undefined` is folded
into the absence of a key (Zod treats a missing key and an `undefined`
value the same for `.optional()` fields). -/
inductive Json where
  | null
  | bool (b : Bool)
  | num (n : Int)
  | str (s : String)
  | arr (xs : List Json)
  | obj (fields : List (String × Json))

/-- JavaScript truthiness for `Json` values (objects and arrays are always
truthy; `0`, `""`, `false` and `null` are falsy). -/
def jsTruthy : Json → Bool
  | .null => false
  | .bool b => b
  | .num n => n != 0
  | .str s => s ≠ ""
  | .arr _ => true
  | .obj _ => true

/-- First-match association lookup on an object's field list, mirroring a
JavaScript property read. -/
def jlookup : List (String × Json) → String → Option Json
  | [], _ => none
  | (k, v) :: rest, key => if k = key then some v else jlookup rest key

/-- Values admitted by `z.union([z.string(), z.number(), z.boolean(), z.null()])`,
the value type of the `attributes` record in `AuthUserSchema`. -/
inductive AttrVal where
  | str (s : String)
  | num (n : Int)
  | bool (b : Bool)
  | null
deriving DecidableEq, Repr

/-- The validated principal produced by `AuthUserSchema` (interface
`AuthUser` in base.driver.ts). -/
structure AuthUser where
  id : String
  email : String
  name : String
  roles : Option (List String)
  attributes : Option (List (String × AttrVal))
deriving DecidableEq, Repr

/-- `z.string()` on a single field value. -/
def parseStr : Json → Option String
  | .str s => some s
  | _ => none

/-- `z.array(z.string())` on an array's elements. -/
def parseStrList : List Json → Option (List String)
  | [] => some []
  | j :: rest =>
    match parseStr j, parseStrList rest with
    | some s, some ss => some (s :: ss)
    | _, _ => none

/-- `z.union([z.string(), z.number(), z.boolean(), z.null()])` on one
attribute value; nested objects and arrays are rejected. -/
def parseAttrVal : Json → Option AttrVal
  | .str s => some (.str s)
  | .num n => some (.num n)
  | .bool b => some (.bool b)
  | .null => some .null
  | .arr _ => none
  | .obj _ => none

/-- `z.record(z.string(), union)` on the `attributes` object's fields. -/
def parseAttrs : List (String × Json) → Option (List (String × AttrVal))
  | [] => some []
  | (k, v) :: rest =>
    match parseAttrVal v, parseAttrs rest with
    | some a, some as_ => some ((k, a) :: as_)
    | _, _ => none

/-- The optional `roles` field: a missing key validates to "absent"; a
present key must be an array of strings. -/
def parseRolesField (fields : List (String × Json)) : Option (Option (List String)) :=
  match jlookup fields "roles" with
  | none => some none
  | some (.arr xs) => (parseStrList xs).map some
  | some _ => none

/-- The optional `attributes` field: a missing key validates to "absent"; a
present key must be a record of string/number/boolean/null values. -/
def parseAttrsField (fields : List (String × Json)) : Option (Option (List (String × AttrVal))) :=
  match jlookup fields "attributes" with
  | none => none |> some
  | some (.obj fs) => (parseAttrs fs).map some
  | some _ => none

/-- A required string field: the key must be present and hold a string. -/
def parseStrField (fields : List (String × Json)) (key : String) : Option String :=
  match jlookup fields key with
  | some v => parseStr v
  | none => none

/-- `AuthUserSchema.safeParse` (base.driver.ts lines 23-29): a Zod object
schema over {id, email, name, roles?, attributes?}.  Non-objects fail;
every declared field validates independently; undeclared keys are stripped
(the result is built only from the five declared fields). -/
def authUserSafeParse (j : Json) : Option AuthUser :=
  match j with
  | .obj fields =>
    match parseStrField fields "id", parseStrField fields "email",
          parseStrField fields "name", parseRolesField fields,
          parseAttrsField fields with
    | some i, some e, some n, some r, some a =>
      some { id := i, email := e, name := n, roles := r, attributes := a }
    | _, _, _, _, _ => none
  | _ => none

/-- `BaseAuthDriver.getUser` (base.driver.ts lines 74-79): reads
`req.session?.user`; a falsy raw value yields null; otherwise the raw
value is validated by `AuthUserSchema.safeParse` and the parsed data (or
null on failure) is returned. -/
def getUser (sessionUser : Option Json) : Option AuthUser :=
  match sessionUser with
  | none => none
  | some raw => if jsTruthy raw then authUserSafeParse raw else none

/-- Request context seen by `optionalAuth`: just the session's stored
`user` value (an absent session and an absent `user` key both read as
`undefined` via `(req.session as any)?.user`). -/
structure OptReq where
  sessionUser : Option Json

/-- Observable outcome of running `optionalAuth` on a request. -/
structure OptionalAuthResult where
  attachedUser : Option Json
  calledNext : Bool
  responseStatus : Option Nat

/-- `optionalAuth` (auth.middleware.ts): reads the session's `user` value;
if truthy it is attached to the request as-is (no schema validation);
`next()` is always called and no response is ever sent. -/
def optionalAuth (r : OptReq) : OptionalAuthResult :=
  match r.sessionUser with
  | some u =>
    if jsTruthy u then { attachedUser := some u, calledNext := true, responseStatus := none }
    else { attachedUser := none, calledNext := true, responseStatus := none }
  | none => { attachedUser := none, calledNext := true, responseStatus := none }

/-- Server-side session state: the named fields the core reads/writes, plus
the session identifier that `regenerate` replaces. -/
structure SessionState where
  user : Option AuthUser
  csrfSecret : Option String
  lastAuthAt : Option Int
  sid : Nat
deriving DecidableEq, Repr

/-- Outcome of `req.session.regenerate`: on success the store installs a
fresh, empty session under a new identifier; on error the callback receives
the error and the driver performs no writes. -/
inductive RegenOutcome where
  | ok (freshSid : Nat)
  | err
deriving DecidableEq, Repr

/-- `BaseAuthDriver.saveUserToSession` (base.driver.ts lines 86-108):
captures `csrfSecret`, regenerates the session id, restores the captured
secret when it is truthy, sets `user` and `lastAuthAt = now`, then saves.
Returns the session state the call leaves behind together with the
rejection error, if any.  On a regeneration error the promise rejects
before any field is written, so the session is returned untouched. -/
def saveUserToSession (s : SessionState) (u : AuthUser) (regen : RegenOutcome)
    (saveOk : Bool) (now : Int) : SessionState × Option String :=
  let captured := s.csrfSecret
  match regen with
  | .err => (s, some "regenerate failed")
  | .ok freshSid =>
    let fresh : SessionState := { user := none, csrfSecret := none, lastAuthAt := none, sid := freshSid }
    let restored := match captured with
      | some c => if c ≠ "" then { fresh with csrfSecret := some c } else fresh
      | none => fresh
    let written := { restored with user := some u, lastAuthAt := some now }
    if saveOk then (written, none) else (written, some "save failed")

/-- `CachedToken` (token-cache.service.ts lines 12-15). -/
structure CachedToken where
  accessToken : String
  expiresAt : Int
deriving DecidableEq, Repr

/-- Buffer before actual expiry that triggers an early refresh
(token-cache.service.ts line 18). -/
def EXPIRY_BUFFER_MS : Int := 60000

/-- The module's two mutable variables: `cachedToken` and `fetchPromise`.
An in-flight fetch is identified by a promise id so that "the exact same
pending result" is expressible as identity of that id. -/
structure TokenCacheState where
  cachedToken : Option CachedToken
  fetchPromise : Option Nat
deriving DecidableEq, Repr

/-- The module's initial state (both variables null). -/
def TokenCacheState.init : TokenCacheState := ⟨none, none⟩

/-- The cache-validity test on line 29:
`cachedToken && cachedToken.expiresAt - EXPIRY_BUFFER_MS > Date.now()`. -/
def cacheFresh (ct : Option CachedToken) (now : Int) : Bool :=
  match ct with
  | some t => t.expiresAt - EXPIRY_BUFFER_MS > now
  | none => false

/-- What one call to `getAccessToken` does synchronously. -/
inductive CallOutcome where
  | cachedHit (token : String)
  | joined (fid : Nat)
  | started (fid : Nat)
deriving DecidableEq, Repr

/-- Lines 33-43: if a fetch is already in flight its promise is returned;
otherwise a new fetch is started and published in `fetchPromise`. -/
def joinOrStart (s : TokenCacheState) (freshFid : Nat) : TokenCacheState × CallOutcome :=
  match s.fetchPromise with
  | some fid => (s, .joined fid)
  | none => ({ s with fetchPromise := some freshFid }, .started freshFid)

/-- The synchronous prefix of `getAccessToken` (token-cache.service.ts
lines 27-44), which runs atomically on the event loop: return the cached
token while it is fresh, otherwise join the in-flight fetch, otherwise
start a new one. -/
def getAccessTokenStep (s : TokenCacheState) (now : Int) (freshFid : Nat) :
    TokenCacheState × CallOutcome :=
  match s.cachedToken with
  | some t =>
    if t.expiresAt - EXPIRY_BUFFER_MS > now then (s, .cachedHit t.accessToken)
    else joinOrStart s freshFid
  | none => joinOrStart s freshFid

/-- Settlement of a successful fetch: `fetchToken` stores
`{accessToken, expiresAt = now + expires_in * 1000}` (lines 82-85) and the
`finally` on lines 39-41 clears the in-flight reference. -/
def settleSuccess (token : String) (expiresIn now : Int) : TokenCacheState :=
  { cachedToken := some { accessToken := token, expiresAt := now + expiresIn * 1000 },
    fetchPromise := none }

/-- Settlement of a failed fetch (non-OK response throw on line 74 or a
network rejection): `fetchToken` throws before the `cachedToken`
assignment, so the cache is untouched, and the `finally` still clears the
in-flight reference. -/
def settleFailure (s : TokenCacheState) : TokenCacheState :=
  { cachedToken := s.cachedToken, fetchPromise := none }

/-- `clearTokenCache` (token-cache.service.ts lines 93-96). -/
def clearTokenCache : TokenCacheState := ⟨none, none⟩

/-- States of the token-cache module reachable by an interleaving of
`getAccessToken` calls, fetch settlements and `clearTokenCache` resets,
with event-loop time moving forward.  Settlement steps require that a
fetch is actually in flight. -/
inductive Reach : TokenCacheState → Int → Prop where
  | init (t0 : Int) : Reach .init t0
  | call {s : TokenCacheState} {t now : Int} {f : Nat} :
      Reach s t → t ≤ now → Reach (getAccessTokenStep s now f).1 now
  | settleS {s : TokenCacheState} {t : Int} {fid : Nat} {tok : String} {ei now : Int} :
      Reach s t → s.fetchPromise = some fid → t ≤ now → Reach (settleSuccess tok ei now) now
  | settleF {s : TokenCacheState} {t : Int} {fid : Nat} {now : Int} :
      Reach s t → s.fetchPromise = some fid → t ≤ now → Reach (settleFailure s) now
  | clear {s : TokenCacheState} {t now : Int} :
      Reach s t → t ≤ now → Reach clearTokenCache now

/-- Whether `needle` matches `hay` position by position from its start
(an implementation of the leading-match test used by `hasSeg`). -/
def startsSeg : List Char → List Char → Bool
  | [], _ => true
  | _ :: _, [] => false
  | a :: as_, b :: bs => a = b && startsSeg as_ bs

/-- Whether the character sequence `needle` occurs contiguously anywhere in
`hay` — `String.includes` on the underlying characters. -/
def hasSeg (hay needle : List Char) : Bool :=
  startsSeg needle hay ||
    match hay with
    | [] => false
    | _ :: t => hasSeg t needle

/-- The route's splat parameter: Express 5 delivers a string array for a
multi-segment wildcard, a plain string in degenerate cases, or nothing. -/
inductive Splat where
  | str (s : String)
  | segs (xs : List String)
  | missing

/-- `raw` as computed on the first line of `sanitizePath`:
`Array.isArray(splat) ? splat.join('/') : splat ?? ''`. -/
def splatRaw : Splat → String
  | .str s => s
  | .segs xs => String.intercalate "/" xs
  | .missing => ""

/-- `sanitizePath` (gateway routes): reject any raw path containing the
parent-directory token `..`; otherwise collapse leading slashes and return
the path with a single leading slash. -/
def sanitizePath (splat : Splat) : Option String :=
  let raw := splatRaw splat
  if hasSeg raw.data "..".data then none
  else some ("/" ++ String.mk (raw.data.dropWhile (· = '/')))

/-- What the upstream proxy attempt produced, when it was attempted:
`proxyRequest` resolving with `{status, data}` or rejecting. -/
inductive ProxyOutcome where
  | ok (status : Nat) (dataBody : String)
  | failed

/-- The observable effects of one gateway route handler invocation. -/
structure GatewayResult where
  status : Nat
  errorCode : Option String
  securityEventLogged : Bool
  proxyCalled : Bool
  proxyPath : Option String
deriving DecidableEq, Repr

/-- The gateway GET route handler (gateway routes file, `router.get` on the
wildcard): a failed `sanitizePath` logs a `gateway.blocked.path_traversal`
security event and answers 400 `INVALID_PATH` without calling
`proxyRequest` (hence no token fetch and no outbound request); otherwise
`proxyRequest` is called with the sanitized path and its status/body are
forwarded, a rejection becoming 502 `BAD_GATEWAY`.  `proxy` supplies the
upstream outcome for the case where the proxy call happens. -/
def gatewayGetHandler (splat : Splat) (proxy : ProxyOutcome) : GatewayResult :=
  match sanitizePath splat with
  | none =>
    { status := 400, errorCode := some "INVALID_PATH", securityEventLogged := true,
      proxyCalled := false, proxyPath := none }
  | some p =>
    match proxy with
    | .ok st _ =>
      { status := st, errorCode := none, securityEventLogged := false,
        proxyCalled := true, proxyPath := some p }
    | .failed =>
      { status := 502, errorCode := some "BAD_GATEWAY", securityEventLogged := false,
        proxyCalled := true, proxyPath := some p }

/-- The environment variables `AuthService.getCallbackUrl` consults.  A
variable that is unset is `none`; note that JavaScript `if (x)` also skips
a variable set to the empty string. -/
structure CallbackEnv where
  authCallbackUrl : Option String
  apiUrl : Option String
  renderExternalUrl : Option String
  renderExternalHostname : Option String
  host : Option String
  port : Option String
  nodeEnv : Option String

/-- JavaScript truthiness of an optional string environment variable. -/
def truthyStr : Option String → Bool
  | some s => s ≠ ""
  | none => false

/-- `x || d` on an optional string environment variable. -/
def orDefault (x : Option String) (d : String) : String :=
  match x with
  | some s => if s ≠ "" then s else d
  | none => d

/-- Whether the last character of `s` is a slash. -/
def endsWithSlash (s : String) : Bool :=
  match s.data.getLast? with
  | some c => c = '/'
  | none => false

/-- `.replace(/\/$/, '')`: remove one trailing slash, if present. -/
def stripTrailingSlash (s : String) : String :=
  if endsWithSlash s then String.mk s.data.dropLast else s

/-- `AuthService.getCallbackUrl` (auth.service.ts): the first-match
priority chain AUTH_CALLBACK_URL, API_URL + suffix, RENDER_EXTERNAL_URL +
suffix, https + RENDER_EXTERNAL_HOSTNAME + suffix, then the HOST/PORT
derivation (https only when NODE_ENV === 'production'; the port is dropped
exactly when production and the host is not localhost/127.0.0.1). -/
def getCallbackUrl (env : CallbackEnv) : String :=
  if truthyStr env.authCallbackUrl then env.authCallbackUrl.getD ""
  else if truthyStr env.apiUrl then
    stripTrailingSlash (env.apiUrl.getD "") ++ "/api/v1/auth/callback"
  else if truthyStr env.renderExternalUrl then
    stripTrailingSlash (env.renderExternalUrl.getD "") ++ "/api/v1/auth/callback"
  else if truthyStr env.renderExternalHostname then
    "https://" ++ env.renderExternalHostname.getD "" ++ "/api/v1/auth/callback"
  else
    let host := orDefault env.host "localhost"
    let port := orDefault env.port "3000"
    let isProduction := env.nodeEnv = some "production"
    let protocol := if isProduction then "https" else "http"
    let hostWithPort :=
      if isProduction ∧ host ≠ "localhost" ∧ host ≠ "127.0.0.1" then host
      else host ++ ":" ++ port
    protocol ++ "://" ++ hostWithPort ++ "/api/v1/auth/callback"

/-- Modelled from the spec: the CSRF guard's session state — the lazily
provisioned per-session `csrfSecret` (apps/api/src/middleware/csrf.middleware.ts
is absent from the sources; only its tests and its wiring in app.ts are
present). -/
structure CsrfSession where
  csrfSecret : Option String
deriving DecidableEq, Repr

/-- Modelled from the spec: the read-only methods that provision and emit a
token rather than demand one. -/
def safeMethods : List String := ["GET", "HEAD", "OPTIONS"]

/-- Modelled from the spec: the configurable allow-list of paths that
bypass the guard entirely (health, info, IdP-callback endpoints). -/
def csrfSkipPaths : List String := ["/api/v1/health", "/api/v1/info", "/api/v1/auth/callback"]

/-- Maps any character to a decimal digit character; the per-character
compression step of the stand-in token derivation below. -/
def digitChar : Nat → Char
  | 0 => '0' | 1 => '1' | 2 => '2' | 3 => '3' | 4 => '4'
  | 5 => '5' | 6 => '6' | 7 => '7' | 8 => '8' | _ => '9'

/-- One masked character of the token derivation. -/
def maskChar (c : Char) : Char := digitChar (c.toNat % 10)

/-- Modelled from the spec: the secret generated on the first safe-method
request of a session, from a per-request randomness source `nonce`. -/
def generateCsrfSecret (nonce : Nat) : String :=
  String.mk ("secret-".data ++ (toString nonce).data)

/-- Modelled from the spec: token derivation, a deterministic function of
the secret that never echoes the secret itself (a stand-in for the
HMAC-style one-way derivation; what matters for the protocol is that the
guard can recompute it from the stored secret and that the secret's bytes
do not appear in it). -/
def deriveCsrfToken (secret : String) : String :=
  String.mk ("token-".data ++ secret.data.map maskChar)

/-- The header/body token actually considered:
`req.headers['x-csrf-token'] || req.body?._csrf` with JS truthiness. -/
def suppliedToken (headerToken bodyToken : Option String) : Option String :=
  match headerToken with
  | some t => if t ≠ "" then some t else
      match bodyToken with
      | some b => if b ≠ "" then some b else none
      | none => none
  | none =>
    match bodyToken with
    | some b => if b ≠ "" then some b else none
    | none => none

/-- Observable outcome of one `csrfProtection` invocation. -/
structure CsrfResult where
  calledNext : Bool
  status : Option Nat
  errorCode : Option String
  headerToken : Option String
  session : CsrfSession
deriving DecidableEq, Repr

/-- Modelled from the spec: `csrfProtection`.  Allow-listed paths pass
through untouched.  A safe-method request reuses the session's truthy
secret or provisions a fresh one, stores it, and emits the derived token in
the `X-CSRF-Token` response header.  A state-changing request reads the
token from the header or the `_csrf` body field; absence is a 403 with
code `CSRF_MISSING`, a token that is not the value derived from the stored
secret is a 403 with code `CSRF_INVALID`, and the matching token passes. -/
def csrfProtection (path method : String) (session : CsrfSession)
    (headerToken bodyToken : Option String) (nonce : Nat) : CsrfResult :=
  if path ∈ csrfSkipPaths then
    { calledNext := true, status := none, errorCode := none, headerToken := none,
      session := session }
  else if method ∈ safeMethods then
    let secret := match session.csrfSecret with
      | some s => if s ≠ "" then s else generateCsrfSecret nonce
      | none => generateCsrfSecret nonce
    { calledNext := true, status := none, errorCode := none,
      headerToken := some (deriveCsrfToken secret), session := ⟨some secret⟩ }
  else
    match suppliedToken headerToken bodyToken with
    | none =>
      { calledNext := false, status := some 403, errorCode := some "CSRF_MISSING",
        headerToken := none, session := session }
    | some t =>
      match session.csrfSecret with
      | some sec =>
        if t = deriveCsrfToken sec then
          { calledNext := true, status := none, errorCode := none, headerToken := none,
            session := session }
        else
          { calledNext := false, status := some 403, errorCode := some "CSRF_INVALID",
            headerToken := none, session := session }
      | none =>
        { calledNext := false, status := some 403, errorCode := some "CSRF_INVALID",
          headerToken := none, session := session }

/-! ## Helper lemmas about the session principal codec -/

lemma jlookup_cons_ne {k key : String} (v : Json) (f : List (String × Json))
    (h : k ≠ key) : jlookup ((k, v) :: f) key = jlookup f key := by
  simp [jlookup, h]

lemma parseStrField_congr {f1 f2 : List (String × Json)} (key : String)
    (h : jlookup f1 key = jlookup f2 key) :
    parseStrField f1 key = parseStrField f2 key := by
  simp only [parseStrField, h]

lemma parseRolesField_congr {f1 f2 : List (String × Json)}
    (h : jlookup f1 "roles" = jlookup f2 "roles") :
    parseRolesField f1 = parseRolesField f2 := by
  simp only [parseRolesField, h]

lemma parseAttrsField_congr {f1 f2 : List (String × Json)}
    (h : jlookup f1 "attributes" = jlookup f2 "attributes") :
    parseAttrsField f1 = parseAttrsField f2 := by
  simp only [parseAttrsField, h]

lemma parseAttrs_mem_none {attrs : List (String × Json)} {k : String} {v : Json}
    (hmem : (k, v) ∈ attrs) (hv : parseAttrVal v = none) :
    parseAttrs attrs = none := by
  induction attrs with
  | nil => cases hmem
  | cons hd tl ih =>
    rcases List.mem_cons.mp hmem with heq | htl
    · subst heq
      simp [parseAttrs, hv]
    · rcases hd with ⟨k0, v0⟩
      simp only [parseAttrs, ih htl]
      cases parseAttrVal v0 <;> rfl

/-- C9: decoding a stored session principal is a projection, not the
identity.  (a) A field whose key is not one of id/email/name/roles/
attributes does not survive into (or influence) the decode: adding it to a
raw object leaves `AuthUserSchema.safeParse` unchanged, and the result
type carries only the five declared fields.  (b) An `attributes` mapping
containing a nested object or array value makes the whole decode fail, so
`BaseAuthDriver.getUser` returns null. -/
theorem C9_codec_projection :
    (∀ (fields : List (String × Json)) (k : String) (v : Json),
      k ∉ ["id", "email", "name", "roles", "attributes"] →
      authUserSafeParse (.obj ((k, v) :: fields)) = authUserSafeParse (.obj fields))
    ∧
    (∀ (fields attrs : List (String × Json)) (k : String) (v : Json),
      jlookup fields "attributes" = some (.obj attrs) → (k, v) ∈ attrs →
      ((∃ fs, v = Json.obj fs) ∨ (∃ xs, v = Json.arr xs)) →
      getUser (some (.obj fields)) = none) := by
  constructor
  · intro fields k v hk
    simp only [List.mem_cons, List.mem_singleton, not_or] at hk
    obtain ⟨h1, h2, h3, h4, h5⟩ := hk
    simp only [authUserSafeParse]
    rw [parseStrField_congr "id" (jlookup_cons_ne v fields h1),
        parseStrField_congr "email" (jlookup_cons_ne v fields h2),
        parseStrField_congr "name" (jlookup_cons_ne v fields h3),
        parseRolesField_congr (jlookup_cons_ne v fields h4),
        parseAttrsField_congr (jlookup_cons_ne v fields h5.1)]
  · intro fields attrs k v hlook hmem hnested
    have hv : parseAttrVal v = none := by
      rcases hnested with ⟨fs, rfl⟩ | ⟨xs, rfl⟩ <;> rfl
    have hA : parseAttrsField fields = none := by
      simp only [parseAttrsField, hlook, parseAttrs_mem_none hmem hv]
      rfl
    simp only [getUser, jsTruthy, if_true, authUserSafeParse, hA]
    cases parseStrField fields "id" <;> cases parseStrField fields "email" <;>
      cases parseStrField fields "name" <;> cases parseRolesField fields <;> rfl

/-- C9 witness: a raw object with an extra `password` field decodes the
same as without it, and a raw object whose attributes hold an array fails
to decode. -/
theorem C9_codec_projection_witness :
    authUserSafeParse (.obj [("password", .str "hunter2"), ("id", .str "u1"),
      ("email", .str "e@x"), ("name", .str "N")]) =
      authUserSafeParse (.obj [("id", .str "u1"), ("email", .str "e@x"), ("name", .str "N")])
    ∧ getUser (some (.obj [("id", .str "u1"), ("email", .str "e@x"), ("name", .str "N"),
        ("attributes", .obj [("tags", .arr [.str "a"])])])) = none := by
  refine ⟨C9_codec_projection.1 _ "password" _ ?_,
          C9_codec_projection.2 _ [("tags", .arr [.str "a"])] "tags" (.arr [.str "a"]) rfl ?_ ?_⟩
  · intro h
    simp only [List.mem_cons, List.mem_singleton] at h
    rcases h with h | h | h | h | h <;> exact absurd h (by decide)
  · exact List.mem_singleton.mpr rfl
  · exact Or.inr ⟨[.str "a"], rfl⟩

/-- C3 counterexample: `AuthUserSchema` uses `z.string()` without a
non-emptiness refinement, so a raw value whose `id` is the empty string is
accepted by the codec and the returned principal's `id` is empty — the
claim's "non-empty" clause fails on the code. -/
theorem C3_codec_nonempty_counterexample :
    getUser (some (.obj [("id", .str ""), ("email", .str "e@x"), ("name", .str "N")])) =
      some { id := "", email := "e@x", name := "N", roles := none, attributes := none } := rfl

/-- C3 amended: for every raw value on which the codec succeeds, the raw
value is an object whose `id`, `email` and `name` keys are present and
hold strings (the strings returned in the principal) — but they are not
guaranteed to be non-empty. -/
theorem C3_codec_fields_amended (su : Option Json) (u : AuthUser)
    (h : getUser su = some u) :
    ∃ fields, su = some (.obj fields)
      ∧ jlookup fields "id" = some (.str u.id)
      ∧ jlookup fields "email" = some (.str u.email)
      ∧ jlookup fields "name" = some (.str u.name) := by
  rcases su with _ | raw
  · exact absurd h (by simp [getUser])
  rcases raw with _ | b | n | s | xs | fields
  case obj =>
    simp only [getUser, jsTruthy, if_true, authUserSafeParse] at h
    rcases hid : parseStrField fields "id" with _ | i <;> rw [hid] at h <;>
      [exact absurd h (by simp); skip]
    rcases hem : parseStrField fields "email" with _ | e <;> rw [hem] at h <;>
      [exact absurd h (by simp); skip]
    rcases hnm : parseStrField fields "name" with _ | nm <;> rw [hnm] at h <;>
      [exact absurd h (by simp); skip]
    rcases hrl : parseRolesField fields with _ | r <;> rw [hrl] at h <;>
      [exact absurd h (by simp); skip]
    rcases hat : parseAttrsField fields with _ | a <;> rw [hat] at h <;>
      [exact absurd h (by simp); skip]
    simp only [Option.some_inj] at h
    subst h
    refine ⟨fields, rfl, ?_, ?_, ?_⟩
    · simp only [parseStrField] at hid
      rcases hl : jlookup fields "id" with _ | w <;> rw [hl] at hid <;>
        [exact absurd hid (by simp); skip]
      rcases w <;> simp only [parseStr, Option.some.injEq, reduceCtorEq] at hid
      rw [hid]
    · simp only [parseStrField] at hem
      rcases hl : jlookup fields "email" with _ | w <;> rw [hl] at hem <;>
        [exact absurd hem (by simp); skip]
      rcases w <;> simp only [parseStr, Option.some.injEq, reduceCtorEq] at hem
      rw [hem]
    · simp only [parseStrField] at hnm
      rcases hl : jlookup fields "name" with _ | w <;> rw [hl] at hnm <;>
        [exact absurd hnm (by simp); skip]
      rcases w <;> simp only [parseStr, Option.some.injEq, reduceCtorEq] at hnm
      rw [hnm]
  all_goals simp [getUser, jsTruthy, authUserSafeParse] at h

/-- C3 amended witness at a concrete decoded principal. -/
theorem C3_codec_fields_amended_witness :
    ∃ fields, (some (Json.obj [("id", .str "u1"), ("email", .str "e@x"), ("name", .str "N")]) : Option Json)
        = some (.obj fields)
      ∧ jlookup fields "id" = some (.str "u1")
      ∧ jlookup fields "email" = some (.str "e@x")
      ∧ jlookup fields "name" = some (.str "N") :=
  C3_codec_fields_amended
    (some (.obj [("id", .str "u1"), ("email", .str "e@x"), ("name", .str "N")]))
    { id := "u1", email := "e@x", name := "N", roles := none, attributes := none } rfl

/-- C2 counterexample: `optionalAuth` attaches the stored session user
without validating it against the Principal schema — a present-but-invalid
session user (numeric `id`, missing `email`/`name`) is attached even
though `AuthUserSchema.safeParse` rejects it. -/
theorem C2_optionalAuth_counterexample :
    (optionalAuth ⟨some (.obj [("id", .num 1)])⟩).attachedUser = some (.obj [("id", .num 1)])
    ∧ authUserSafeParse (.obj [("id", .num 1)]) = none
    ∧ (optionalAuth ⟨some (.obj [("id", .num 1)])⟩).calledNext = true :=
  ⟨rfl, rfl, rfl⟩

/-- C2 amended: `optionalAuth` never sends a rejection response and always
calls the next handler; it attaches the session's stored user value
whenever that value is present and truthy, with no schema validation. -/
theorem C2_optionalAuth_amended (r : OptReq) :
    ((optionalAuth r).calledNext = true ∧ (optionalAuth r).responseStatus = none)
    ∧ (∀ u, r.sessionUser = some u → jsTruthy u = true →
        (optionalAuth r).attachedUser = some u) := by
  refine ⟨?_, ?_⟩
  · rcases h : r.sessionUser with _ | u
    · simp [optionalAuth, h]
    · by_cases ht : jsTruthy u <;> simp [optionalAuth, h, ht]
  · intro u hu ht
    simp [optionalAuth, hu, ht]

/-- C2 amended witness: a request whose session stores a (valid) user. -/
theorem C2_optionalAuth_amended_witness :
    ((optionalAuth ⟨some (.str "x")⟩).calledNext = true
      ∧ (optionalAuth ⟨some (.str "x")⟩).responseStatus = none)
    ∧ (optionalAuth ⟨some (.str "x")⟩).attachedUser = some (.str "x") :=
  ⟨(C2_optionalAuth_amended ⟨some (.str "x")⟩).1,
   (C2_optionalAuth_amended ⟨some (.str "x")⟩).2 (.str "x") rfl rfl⟩

/-- C1: the shared session-save protocol.  When the session's `csrfSecret`
is a non-empty string and both regeneration and save succeed, the saved
session carries the same `csrfSecret` byte-for-byte, `user` equal to the
principal being saved, and `lastAuthAt` equal to the call's current time
(and a fresh session id).  When the regeneration callback reports an
error, the call rejects and the session is left untouched — in particular
no principal is written. -/
theorem C1_save_session_protocol (s : SessionState) (u : AuthUser) (now : Int) :
    (∀ c fresh, s.csrfSecret = some c → c ≠ "" →
      saveUserToSession s u (.ok fresh) true now =
        ({ user := some u, csrfSecret := some c, lastAuthAt := some now, sid := fresh }, none))
    ∧ (∀ saveOk, (saveUserToSession s u .err saveOk now).1 = s
        ∧ ((saveUserToSession s u .err saveOk now).2).isSome = true) := by
  constructor
  · intro c fresh hc hnz
    simp [saveUserToSession, hc, hnz]
  · intro saveOk
    exact ⟨rfl, rfl⟩

/-- C1 witness at a concrete session, principal, time and outcome pair. -/
theorem C1_save_session_protocol_witness :
    (saveUserToSession ⟨none, some "sec", none, 1⟩
        ⟨"u1", "e@x", "N", none, none⟩ (.ok 2) true 1000 =
      ({ user := some ⟨"u1", "e@x", "N", none, none⟩, csrfSecret := some "sec",
         lastAuthAt := some 1000, sid := 2 }, none))
    ∧ ((saveUserToSession ⟨none, some "sec", none, 1⟩
        ⟨"u1", "e@x", "N", none, none⟩ .err true 1000).1 = ⟨none, some "sec", none, 1⟩
      ∧ ((saveUserToSession ⟨none, some "sec", none, 1⟩
        ⟨"u1", "e@x", "N", none, none⟩ .err true 1000).2).isSome = true) :=
  ⟨(C1_save_session_protocol ⟨none, some "sec", none, 1⟩ ⟨"u1", "e@x", "N", none, none⟩ 1000).1
      "sec" 2 rfl (by decide),
   (C1_save_session_protocol ⟨none, some "sec", none, 1⟩ ⟨"u1", "e@x", "N", none, none⟩ 1000).2
      true⟩

/-! ## Helper lemmas about the token cache -/

lemma cacheFresh_mono {ct : Option CachedToken} {t now : Int}
    (h : cacheFresh ct t = false) (hle : t ≤ now) : cacheFresh ct now = false := by
  rcases ct with _ | tok
  · rfl
  · simp only [cacheFresh, decide_eq_false_iff_not, not_lt] at h ⊢
    omega

/-- Invariant of the token-cache module: whenever a fetch is in flight, the
cached token (if any) is already inside the expiry buffer — it went stale
no later than the moment the fetch was started. -/
lemma reach_inflight_stale {s : TokenCacheState} {t : Int}
    (h : Reach s t) (hin : s.fetchPromise.isSome) :
    cacheFresh s.cachedToken t = false := by
  induction h with
  | init t0 => simp [TokenCacheState.init] at hin
  | @call s t now f hr hle ih =>
    rcases hct : s.cachedToken with _ | tok
    · rcases hfp : s.fetchPromise with _ | fid <;>
        simp [getAccessTokenStep, joinOrStart, hct, hfp, cacheFresh]
    · by_cases hfr : tok.expiresAt - EXPIRY_BUFFER_MS > now
      · have hs : (getAccessTokenStep s now f).1 = s := by
          simp [getAccessTokenStep, hct, hfr]
        rw [hs] at hin
        have := cacheFresh_mono (ih hin) hle
        rw [hct] at this
        simp only [cacheFresh, decide_eq_false_iff_not, not_lt] at this
        omega
      · rcases hfp : s.fetchPromise with _ | fid <;>
          simp [getAccessTokenStep, joinOrStart, hct, hfp, hfr, cacheFresh]
  | settleS hr hfid hle => simp [settleSuccess] at hin
  | settleF hr hfid hle => simp [settleFailure] at hin
  | clear hr hle => simp [clearTokenCache] at hin

/-- C4: single-flight token fetching.  In any reachable module state with a
fetch in flight (`fetchPromise = fid`), a `getAccessToken` call at any
later time returns exactly the in-flight promise `fid` and changes nothing
— so no second outbound token request is issued, and since the returned
promise id does not depend on the caller (`f` is arbitrary), every
concurrent caller shares the one promise and hence observes the identical
settlement.  Both settlement paths — success and failure — clear the
shared pending-result reference. -/
theorem C4_token_fetch_dedup (s : TokenCacheState) (t now : Int) (fid f : Nat)
    (tok : String) (ei nw : Int)
    (h : Reach s t) (hin : s.fetchPromise = some fid) (hle : t ≤ now) :
    getAccessTokenStep s now f = (s, .joined fid)
    ∧ (settleSuccess tok ei nw).fetchPromise = none
    ∧ (settleFailure s).fetchPromise = none := by
  refine ⟨?_, rfl, rfl⟩
  have hstale : cacheFresh s.cachedToken now = false :=
    cacheFresh_mono (reach_inflight_stale h (by simp [hin])) hle
  rcases hct : s.cachedToken with _ | tkn
  · simp [getAccessTokenStep, joinOrStart, hct, hin]
  · rw [hct] at hstale
    simp only [cacheFresh, decide_eq_false_iff_not, not_lt] at hstale
    simp [getAccessTokenStep, joinOrStart, hct, hin, show ¬ tkn.expiresAt - EXPIRY_BUFFER_MS > now by omega]

/-- C4 witness: from the initial state, a first call at time 0 starts fetch
0; a second call at time 5 then joins that same fetch untouched, and both
settlement shapes clear the reference. -/
theorem C4_token_fetch_dedup_witness :
    getAccessTokenStep ⟨none, some 0⟩ 5 7 = (⟨none, some 0⟩, .joined 0)
    ∧ (settleSuccess "tok" 3600 5).fetchPromise = none
    ∧ (settleFailure ⟨none, some 0⟩).fetchPromise = none := by
  have h0 : Reach ⟨none, some 0⟩ 0 := by
    have h := Reach.call (f := 0) (Reach.init 0) (le_refl 0)
    rwa [show (getAccessTokenStep TokenCacheState.init 0 0).1 = ⟨none, some 0⟩ from rfl] at h
  exact C4_token_fetch_dedup ⟨none, some 0⟩ 0 5 0 7 "tok" 3600 5 h0 rfl (by decide)

/-- C5: expiry-buffer discipline of the cache (buffer = 60 000 ms).  A call
with a cached token strictly inside its safety window (`now` before
`expiresAt - buffer`) returns the cached access-token string immediately
with no state change (no fetch started); a call after the window
(`now` past `expiresAt - buffer`) never returns the cached token — it
resolves to the in-flight fetch when one exists and otherwise starts a
fresh one. -/
theorem C5_token_cache_expiry (s : TokenCacheState) (now : Int) (f : Nat)
    (tkn : CachedToken) (hct : s.cachedToken = some tkn) :
    EXPIRY_BUFFER_MS = 60000
    ∧ (tkn.expiresAt - EXPIRY_BUFFER_MS > now →
        getAccessTokenStep s now f = (s, .cachedHit tkn.accessToken))
    ∧ (now > tkn.expiresAt - EXPIRY_BUFFER_MS →
        (getAccessTokenStep s now f).2 =
          (match s.fetchPromise with
           | some fid => .joined fid
           | none => .started f)) := by
  refine ⟨rfl, ?_, ?_⟩
  · intro hfr
    simp [getAccessTokenStep, hct, hfr]
  · intro hpast
    have hnot : ¬ tkn.expiresAt - EXPIRY_BUFFER_MS > now := by omega
    rcases hfp : s.fetchPromise with _ | fid <;>
      simp [getAccessTokenStep, joinOrStart, hct, hfp, hnot]

/-- C5 witness: a token expiring at 100 000 is served from cache at
now = 30 000 and refetched at now = 50 000. -/
theorem C5_token_cache_expiry_witness :
    EXPIRY_BUFFER_MS = 60000
    ∧ getAccessTokenStep ⟨some ⟨"tok", 100000⟩, none⟩ 30000 4 =
        (⟨some ⟨"tok", 100000⟩, none⟩, .cachedHit "tok")
    ∧ (getAccessTokenStep ⟨some ⟨"tok", 100000⟩, none⟩ 50000 4).2 = .started 4 := by
  obtain ⟨hb, hfr, hpast⟩ :=
    C5_token_cache_expiry ⟨some ⟨"tok", 100000⟩, none⟩ 30000 4 ⟨"tok", 100000⟩ rfl
  refine ⟨hb, hfr (by decide), ?_⟩
  obtain ⟨_, _, hpast2⟩ :=
    C5_token_cache_expiry ⟨some ⟨"tok", 100000⟩, none⟩ 50000 4 ⟨"tok", 100000⟩ rfl
  exact hpast2 (by decide)

/-- C10: a failed fetch never poisons the cache.  Settling the in-flight
fetch of any reachable state as a failure leaves the cached token exactly
as it was (no partial token is stored), clears the in-flight marker, and
the next `getAccessToken` call issues a fresh outbound token request (it
neither fails forever nor returns the failed result). -/
theorem C10_failed_fetch_recovery (s : TokenCacheState) (t now : Int) (fid f : Nat)
    (h : Reach s t) (hin : s.fetchPromise = some fid) (hle : t ≤ now) :
    (settleFailure s).cachedToken = s.cachedToken
    ∧ (settleFailure s).fetchPromise = none
    ∧ getAccessTokenStep (settleFailure s) now f =
        (⟨s.cachedToken, some f⟩, .started f) := by
  refine ⟨rfl, rfl, ?_⟩
  have hstale : cacheFresh s.cachedToken now = false :=
    cacheFresh_mono (reach_inflight_stale h (by simp [hin])) hle
  rcases hct : s.cachedToken with _ | tkn
  · simp [getAccessTokenStep, joinOrStart, settleFailure, hct]
  · rw [hct] at hstale
    simp only [cacheFresh, decide_eq_false_iff_not, not_lt] at hstale
    simp [getAccessTokenStep, joinOrStart, settleFailure, hct,
      show ¬ tkn.expiresAt - EXPIRY_BUFFER_MS > now by omega]

/-- C10 witness: a failed fetch from the state reached by one call at time
0 leaves an empty cache, clears the marker, and the next call at time 9
starts fetch 3. -/
theorem C10_failed_fetch_recovery_witness :
    (settleFailure ⟨none, some 0⟩).cachedToken = (⟨none, some 0⟩ : TokenCacheState).cachedToken
    ∧ (settleFailure ⟨none, some 0⟩).fetchPromise = none
    ∧ getAccessTokenStep (settleFailure ⟨none, some 0⟩) 9 3 =
        (⟨none, some 3⟩, .started 3) := by
  have h0 : Reach ⟨none, some 0⟩ 0 := by
    have h := Reach.call (f := 0) (Reach.init 0) (le_refl 0)
    rwa [show (getAccessTokenStep TokenCacheState.init 0 0).1 = ⟨none, some 0⟩ from rfl] at h
  exact C10_failed_fetch_recovery ⟨none, some 0⟩ 0 9 0 3 h0 rfl (by decide)

/-- C6: traversal rejection is local.  For every gateway request whose raw
proxied path contains the `..` token, and whatever the upstream would have
answered, the handler responds 400 with error code `INVALID_PATH`, logs a
security event, and never calls `proxyRequest` — so neither a token fetch
nor the proxy fetch goes out for that request. -/
theorem C6_gateway_path_traversal (splat : Splat) (proxy : ProxyOutcome)
    (h : hasSeg (splatRaw splat).data "..".data = true) :
    gatewayGetHandler splat proxy =
      { status := 400, errorCode := some "INVALID_PATH", securityEventLogged := true,
        proxyCalled := false, proxyPath := none } := by
  have hs : sanitizePath splat = none := by
    simp [sanitizePath, h]
  simp [gatewayGetHandler, hs]

/-- C6 witness: the multi-segment path `items/../secret` is rejected even
though the upstream would have answered 200. -/
theorem C6_gateway_path_traversal_witness :
    gatewayGetHandler (.segs ["items", "..", "secret"]) (.ok 200 "data") =
      { status := 400, errorCode := some "INVALID_PATH", securityEventLogged := true,
        proxyCalled := false, proxyPath := none } :=
  C6_gateway_path_traversal (.segs ["items", "..", "secret"]) (.ok 200 "data") (by decide)

/-- C7: callback URL resolution is a first-match-wins priority chain:
(1) the explicit `AUTH_CALLBACK_URL` override; (2) `API_URL` (one trailing
slash stripped) plus the fixed suffix `/api/v1/auth/callback`;
(3) `RENDER_EXTERNAL_URL` plus the suffix; (4) `https://` plus
`RENDER_EXTERNAL_HOSTNAME` plus the suffix; (5) the HOST/PORT derivation,
where the protocol is https exactly when `NODE_ENV` is `production` and
the port is dropped exactly for production on a non-loopback host (so the
port is included only for loopback hosts or non-production environments). -/
theorem C7_callback_url_chain (env : CallbackEnv) :
    (∀ v, env.authCallbackUrl = some v → v ≠ "" → getCallbackUrl env = v)
    ∧ (truthyStr env.authCallbackUrl = false →
        ∀ v, env.apiUrl = some v → v ≠ "" →
          getCallbackUrl env = stripTrailingSlash v ++ "/api/v1/auth/callback")
    ∧ (truthyStr env.authCallbackUrl = false → truthyStr env.apiUrl = false →
        ∀ v, env.renderExternalUrl = some v → v ≠ "" →
          getCallbackUrl env = stripTrailingSlash v ++ "/api/v1/auth/callback")
    ∧ (truthyStr env.authCallbackUrl = false → truthyStr env.apiUrl = false →
        truthyStr env.renderExternalUrl = false →
        ∀ v, env.renderExternalHostname = some v → v ≠ "" →
          getCallbackUrl env = "https://" ++ v ++ "/api/v1/auth/callback")
    ∧ (truthyStr env.authCallbackUrl = false → truthyStr env.apiUrl = false →
        truthyStr env.renderExternalUrl = false →
        truthyStr env.renderExternalHostname = false →
          ((env.nodeEnv = some "production" ∧ orDefault env.host "localhost" ≠ "localhost"
              ∧ orDefault env.host "localhost" ≠ "127.0.0.1") →
            getCallbackUrl env =
              "https://" ++ orDefault env.host "localhost" ++ "/api/v1/auth/callback")
          ∧ (env.nodeEnv ≠ some "production" →
            getCallbackUrl env =
              "http://" ++ (orDefault env.host "localhost" ++ ":" ++ orDefault env.port "3000")
                ++ "/api/v1/auth/callback")
          ∧ ((env.nodeEnv = some "production" ∧ (orDefault env.host "localhost" = "localhost"
              ∨ orDefault env.host "localhost" = "127.0.0.1")) →
            getCallbackUrl env =
              "https://" ++ (orDefault env.host "localhost" ++ ":" ++ orDefault env.port "3000")
                ++ "/api/v1/auth/callback")) := by
  refine ⟨?_, ?_, ?_, ?_, ?_⟩
  · intro v hv hnz
    have ht : truthyStr (some v) = true := by simp [truthyStr, hnz]
    simp [getCallbackUrl, hv, ht]
  · intro h1 v hv hnz
    have ht : truthyStr (some v) = true := by simp [truthyStr, hnz]
    simp [getCallbackUrl, h1, hv, ht]
  · intro h1 h2 v hv hnz
    have ht : truthyStr (some v) = true := by simp [truthyStr, hnz]
    simp [getCallbackUrl, h1, h2, hv, ht]
  · intro h1 h2 h3 v hv hnz
    have ht : truthyStr (some v) = true := by simp [truthyStr, hnz]
    simp [getCallbackUrl, h1, h2, h3, hv, ht]
  · intro h1 h2 h3 h4
    refine ⟨?_, ?_, ?_⟩
    · rintro ⟨hprod, hn1, hn2⟩
      simp [getCallbackUrl, h1, h2, h3, h4, hprod, hn1, hn2]
    · intro hnp
      simp [getCallbackUrl, h1, h2, h3, h4, hnp]
    · rintro ⟨hprod, hloop⟩
      rcases hloop with hl | hl <;> simp [getCallbackUrl, h1, h2, h3, h4, hprod, hl]

/-- C7 witness: one concrete environment per branch of the chain. -/
theorem C7_callback_url_chain_witness :
    getCallbackUrl ⟨some "https://cb.example/x", some "u", none, none, none, none, none⟩ =
      "https://cb.example/x"
    ∧ getCallbackUrl ⟨none, some "https://api.example/", none, none, none, none, none⟩ =
      "https://api.example/api/v1/auth/callback"
    ∧ getCallbackUrl ⟨none, none, some "https://r.example", none, none, none, none⟩ =
      "https://r.example/api/v1/auth/callback"
    ∧ getCallbackUrl ⟨none, none, none, some "h.example", none, none, none⟩ =
      "https://h.example/api/v1/auth/callback"
    ∧ getCallbackUrl ⟨none, none, none, none, some "app.example", some "8080", some "production"⟩ =
      "https://app.example/api/v1/auth/callback"
    ∧ getCallbackUrl ⟨none, none, none, none, none, none, none⟩ =
      "http://localhost:3000/api/v1/auth/callback"
    ∧ getCallbackUrl ⟨none, none, none, none, some "localhost", some "443", some "production"⟩ =
      "https://localhost:443/api/v1/auth/callback" := by
  refine ⟨?_, ?_, ?_, ?_, ?_, ?_, ?_⟩
  · exact (C7_callback_url_chain ⟨some "https://cb.example/x", some "u", none, none, none, none, none⟩).1
      "https://cb.example/x" rfl (by decide)
  · exact ((C7_callback_url_chain ⟨none, some "https://api.example/", none, none, none, none, none⟩).2.1
      rfl "https://api.example/" rfl (by decide)).trans (by decide)
  · exact ((C7_callback_url_chain ⟨none, none, some "https://r.example", none, none, none, none⟩).2.2.1
      rfl rfl "https://r.example" rfl (by decide)).trans (by decide)
  · exact (C7_callback_url_chain ⟨none, none, none, some "h.example", none, none, none⟩).2.2.2.1
      rfl rfl rfl "h.example" rfl (by decide)
  · exact ((C7_callback_url_chain ⟨none, none, none, none, some "app.example", some "8080",
      some "production"⟩).2.2.2.2 rfl rfl rfl rfl).1 ⟨rfl, by decide, by decide⟩
  · exact ((C7_callback_url_chain ⟨none, none, none, none, none, none, none⟩).2.2.2.2
      rfl rfl rfl rfl).2.1 (by decide)
  · exact ((C7_callback_url_chain ⟨none, none, none, none, some "localhost", some "443",
      some "production"⟩).2.2.2.2 rfl rfl rfl rfl).2.2 ⟨rfl, Or.inl (by decide)⟩

/-! ## Helper lemmas about the CSRF guard model -/

lemma startsSeg_subset : ∀ {needle hay : List Char},
    startsSeg needle hay = true → ∀ c ∈ needle, c ∈ hay := by
  intro needle
  induction needle with
  | nil => intro hay _ c hc; cases hc
  | cons a as_ ih =>
    intro hay h c hc
    cases hay with
    | nil => simp [startsSeg] at h
    | cons b bs =>
      simp only [startsSeg, Bool.and_eq_true, decide_eq_true_eq] at h
      rcases List.mem_cons.mp hc with rfl | hcs
      · exact h.1 ▸ List.mem_cons_self b bs
      · exact List.mem_cons_of_mem b (ih h.2 c hcs)

lemma hasSeg_subset : ∀ {hay needle : List Char},
    hasSeg hay needle = true → ∀ c ∈ needle, c ∈ hay := by
  intro hay
  induction hay with
  | nil =>
    intro needle h c hc
    cases needle with
    | nil => cases hc
    | cons a as_ => simp [hasSeg, startsSeg] at h
  | cons b bs ih =>
    intro needle h c hc
    simp only [hasSeg, Bool.or_eq_true] at h
    rcases h with h | h
    · exact startsSeg_subset h c hc
    · exact List.mem_cons_of_mem b (ih h c hc)

lemma hasSeg_eq_false_of_missing_char {hay needle : List Char} {c : Char}
    (hc : c ∈ needle) (hn : c ∉ hay) : hasSeg hay needle = false := by
  by_contra h
  exact hn (hasSeg_subset (Bool.of_not_eq_false h) c hc)

lemma digitChar_ne_s (n : Nat) : digitChar n ≠ 's' := by
  unfold digitChar
  split <;> decide

lemma s_mem_secret (nonce : Nat) : 's' ∈ (generateCsrfSecret nonce).data :=
  List.mem_append_left _ (by decide)

lemma s_not_mem_token (secret : String) : 's' ∉ (deriveCsrfToken secret).data := by
  intro h
  rcases List.mem_append.mp h with h | h
  · exact absurd h (by decide)
  · rcases List.mem_map.mp h with ⟨a, _, ha⟩
    exact digitChar_ne_s (a.toNat % 10) ha

lemma deriveCsrfToken_ne_empty (secret : String) : deriveCsrfToken secret ≠ "" := by
  intro h
  have hdata : ("token-".data ++ secret.data.map maskChar) = ([] : List Char) :=
    congrArg String.data h
  simp at hdata

/-- C8: CSRF token round-trip (the guard is modelled from the spec, its
implementation file being absent).  Against a fresh session, a safe-method
request provisions a `csrfSecret` and emits the derived token in the
response header; a state-changing request on that session supplying that
exact token via the header or via the body field is accepted; one with no
token is rejected 403 with reason `CSRF_MISSING`; one with any other
(truthy) token is rejected 403 with reason `CSRF_INVALID`; and the secret
never appears in the response — it is not a segment of the emitted header
token nor of either reason code. -/
theorem C8_csrf_roundtrip (nonce nonce2 : Nat) (path tamper : String)
    (hpath : path ∉ csrfSkipPaths) (htne : tamper ≠ "")
    (htbad : tamper ≠ deriveCsrfToken (generateCsrfSecret nonce)) :
    csrfProtection path "GET" ⟨none⟩ none none nonce =
      ⟨true, none, none, some (deriveCsrfToken (generateCsrfSecret nonce)),
        ⟨some (generateCsrfSecret nonce)⟩⟩
    ∧ csrfProtection path "POST" ⟨some (generateCsrfSecret nonce)⟩
        (some (deriveCsrfToken (generateCsrfSecret nonce))) none nonce2 =
      ⟨true, none, none, none, ⟨some (generateCsrfSecret nonce)⟩⟩
    ∧ csrfProtection path "POST" ⟨some (generateCsrfSecret nonce)⟩
        none (some (deriveCsrfToken (generateCsrfSecret nonce))) nonce2 =
      ⟨true, none, none, none, ⟨some (generateCsrfSecret nonce)⟩⟩
    ∧ csrfProtection path "POST" ⟨some (generateCsrfSecret nonce)⟩ none none nonce2 =
      ⟨false, some 403, some "CSRF_MISSING", none, ⟨some (generateCsrfSecret nonce)⟩⟩
    ∧ csrfProtection path "POST" ⟨some (generateCsrfSecret nonce)⟩ (some tamper) none nonce2 =
      ⟨false, some 403, some "CSRF_INVALID", none, ⟨some (generateCsrfSecret nonce)⟩⟩
    ∧ hasSeg (deriveCsrfToken (generateCsrfSecret nonce)).data (generateCsrfSecret nonce).data = false
    ∧ hasSeg "CSRF_MISSING".data (generateCsrfSecret nonce).data = false
    ∧ hasSeg "CSRF_INVALID".data (generateCsrfSecret nonce).data = false := by
  have hemp := deriveCsrfToken_ne_empty (generateCsrfSecret nonce)
  refine ⟨?_, ?_, ?_, ?_, ?_, ?_, ?_, ?_⟩
  · simp [csrfProtection, hpath, safeMethods]
  · simp [csrfProtection, hpath, safeMethods, suppliedToken, hemp]
  · simp [csrfProtection, hpath, safeMethods, suppliedToken, hemp]
  · simp [csrfProtection, hpath, safeMethods, suppliedToken]
  · simp [csrfProtection, hpath, safeMethods, suppliedToken, htne, htbad]
  · exact hasSeg_eq_false_of_missing_char (s_mem_secret nonce) (s_not_mem_token _)
  · exact hasSeg_eq_false_of_missing_char (s_mem_secret nonce) (by decide)
  · exact hasSeg_eq_false_of_missing_char (s_mem_secret nonce) (by decide)

/-- C8 witness: the concrete round trip on path `/api/v1/widgets` with
nonce 0 and the tampered token `bad`. -/
theorem C8_csrf_roundtrip_witness :
    csrfProtection "/api/v1/widgets" "GET" ⟨none⟩ none none 0 =
      ⟨true, none, none, some (deriveCsrfToken (generateCsrfSecret 0)),
        ⟨some (generateCsrfSecret 0)⟩⟩
    ∧ csrfProtection "/api/v1/widgets" "POST" ⟨some (generateCsrfSecret 0)⟩
        (some (deriveCsrfToken (generateCsrfSecret 0))) none 1 =
      ⟨true, none, none, none, ⟨some (generateCsrfSecret 0)⟩⟩
    ∧ csrfProtection "/api/v1/widgets" "POST" ⟨some (generateCsrfSecret 0)⟩
        none (some (deriveCsrfToken (generateCsrfSecret 0))) 1 =
      ⟨true, none, none, none, ⟨some (generateCsrfSecret 0)⟩⟩
    ∧ csrfProtection "/api/v1/widgets" "POST" ⟨some (generateCsrfSecret 0)⟩ none none 1 =
      ⟨false, some 403, some "CSRF_MISSING", none, ⟨some (generateCsrfSecret 0)⟩⟩
    ∧ csrfProtection "/api/v1/widgets" "POST" ⟨some (generateCsrfSecret 0)⟩ (some "bad") none 1 =
      ⟨false, some 403, some "CSRF_INVALID", none, ⟨some (generateCsrfSecret 0)⟩⟩
    ∧ hasSeg (deriveCsrfToken (generateCsrfSecret 0)).data (generateCsrfSecret 0).data = false
    ∧ hasSeg "CSRF_MISSING".data (generateCsrfSecret 0).data = false
    ∧ hasSeg "CSRF_INVALID".data (generateCsrfSecret 0).data = false :=
  C8_csrf_roundtrip 0 1 "/api/v1/widgets" "bad" (by decide) (by decide) (by decide)

end Spec2Proof
